import Mathlib

/-!
Shallow embedding of the vocal-remover backend (`src/main.py`): the job
orchestration and session lifecycle subsystem.  Filesystem state is modelled
as finite lists of directory and file paths (paths are component lists, so
`/tmp/x/y` is `["tmp", "x", "y"]`); the external separation engine and the
single fallible deletion step are modelled as oracles supplied to the
operations.  HTTP exceptions are modelled as (status code, detail string)
pairs.
-/

namespace VocalRemover

/-- A filesystem path, as the list of its components under the root. -/
abbrev FPath := List String

/-- A snapshot of the filesystem: the directories and regular files that
exist.  Lists are kept in creation order; directory listing order is the
order of `dirs`. -/
structure FS where
  dirs : List FPath
  files : List FPath
deriving Repr, DecidableEq

/-- `Path.exists()` for a directory. -/
def FS.dirExists (fs : FS) (p : FPath) : Prop := p ∈ fs.dirs

instance (fs : FS) (p : FPath) : Decidable (fs.dirExists p) := by
  unfold FS.dirExists; infer_instance

/-- `Path.exists()` for a regular file. -/
def FS.fileExists (fs : FS) (p : FPath) : Prop := p ∈ fs.files

instance (fs : FS) (p : FPath) : Decidable (fs.fileExists p) := by
  unfold FS.fileExists; infer_instance

/-- `Path.mkdir(exist_ok=True)`: creates the directory if absent. -/
def FS.mkdir (fs : FS) (p : FPath) : FS :=
  if p ∈ fs.dirs then fs else { fs with dirs := fs.dirs ++ [p] }

/-- `open(p, "wb").write(...)`: the file exists afterwards (content is not
tracked; only existence matters downstream). -/
def FS.writeFile (fs : FS) (p : FPath) : FS :=
  if p ∈ fs.files then fs else { fs with files := fs.files ++ [p] }

/-- `Path.unlink()`: removes the file. -/
def FS.unlink (fs : FS) (p : FPath) : FS :=
  { fs with files := fs.files.filter (fun f => decide (f ≠ p)) }

/-- `shutil.rmtree(p)`: removes `p` and everything below it. -/
def FS.rmtree (fs : FS) (p : FPath) : FS :=
  { dirs := fs.dirs.filter (fun d => decide (¬ p <+: d)),
    files := fs.files.filter (fun f => decide (¬ p <+: f)) }

/-- The subdirectories of `p`, in listing order: models
`[d for d in p.iterdir() if d.is_dir()]`. -/
def FS.subdirs (fs : FS) (p : FPath) : List FPath :=
  fs.dirs.filter (fun d => decide (d.length = p.length + 1 ∧ p <+: d))

/-- Apply a batch of directory creations (what the engine process makes). -/
def FS.addDirs (fs : FS) (l : List FPath) : FS := l.foldl FS.mkdir fs

/-- Apply a batch of file creations (what the engine process writes). -/
def FS.addFiles (fs : FS) (l : List FPath) : FS := l.foldl FS.writeFile fs

/-- `fastapi.HTTPException`: status code plus detail message. -/
structure HTTPError where
  status_code : Nat
  detail : String
deriving Repr, DecidableEq

/-- `str()` of a raised `HTTPException` (starlette renders it as
`"{status_code}: {detail}"`). -/
def httpExcStr (e : HTTPError) : String :=
  toString e.status_code ++ ": " ++ e.detail

/-! ### Python `pathlib` helpers

`Path(s).name`, `.suffix`, `.stem` and `str.lower()`/`str.title()` as the
code uses them, restricted to ASCII (all strings the service compares are
ASCII). -/

/-- Split a character list at every `/` (the separator between path
components). -/
def splitOnSlash : List Char → List (List Char)
  | [] => [[]]
  | c :: cs =>
      match splitOnSlash cs with
      | [] => [[]]
      | h :: t => if c = '/' then [] :: h :: t else (c :: h) :: t

/-- `Path(s).name`: the last component after dropping empty and `.` parts. -/
def pyPathName (s : String) : String :=
  (((splitOnSlash s.data).map String.mk).filter (fun c => c ≠ "" && c ≠ ".")).getLastD ""

/-- Index of the last `.` in a character list, if any. -/
def rfindDotIdx (cs : List Char) : Option Nat :=
  ((List.range cs.length).filter (fun i => cs.getD i ' ' == '.')).getLast?

/-- `pathlib` suffix rule on a final component: `name[i:]` for the last dot
index `i` when `0 < i < len(name) - 1`, else the empty string. -/
def pySuffixOfName (name : String) : String :=
  match rfindDotIdx name.data with
  | none => ""
  | some i =>
      if 0 < i ∧ i < name.data.length - 1 then String.mk (name.data.drop i) else ""

/-- `Path(s).suffix`. -/
def pySuffix (s : String) : String := pySuffixOfName (pyPathName s)

/-- `pathlib` stem rule on a final component: the name with its suffix
removed. -/
def pyStemOfName (name : String) : String :=
  match rfindDotIdx name.data with
  | none => name
  | some i =>
      if 0 < i ∧ i < name.data.length - 1 then String.mk (name.data.take i) else name

/-- `str.lower()` (ASCII). -/
def asciiLower (s : String) : String := String.mk (s.data.map Char.toLower)

/-- `str.title()` (ASCII): uppercase each letter that starts a letter run,
lowercase the rest. -/
def pyTitleAux : Bool → List Char → List Char
  | _, [] => []
  | prevAlpha, c :: cs =>
      (if c.isAlpha then (if prevAlpha then c.toLower else c.toUpper) else c)
        :: pyTitleAux c.isAlpha cs

/-- `str.title()` on a whole string. -/
def pyTitle (s : String) : String := String.mk (pyTitleAux false s.data)

/-- Python `x or default` on an optional string (`None` and `""` are falsy). -/
def pyOrStr (o : Option String) (d : String) : String :=
  match o with
  | none => d
  | some s => if s = "" then d else s

/-! ### Constants (`src/main.py` lines 32-35) -/

/-- `MAX_FILE_SIZE = 50 * 1024 * 1024`. -/
def MAX_FILE_SIZE : Nat := 50 * 1024 * 1024

/-- `ALLOWED_EXTENSIONS = {".mp3", ".wav"}` (as a list; only membership is
used by the code, so set iteration order is irrelevant except in the error
message text, where the model fixes one order). -/
def ALLOWED_EXTENSIONS : List String := [".mp3", ".wav"]

/-- `TEMP_DIR = Path("/tmp")` (the non-Windows branch). -/
def TEMP_DIR : FPath := ["tmp"]

/-- `TEMP_DIR / f"vocal_remover_{session_id}"`. -/
def sessionDir (session_id : String) : FPath :=
  TEMP_DIR ++ ["vocal_remover_" ++ session_id]

/-- The upload as the handler sees it: client-declared filename, the
client-declared size attribute when present, and the actual byte length of
the body that `await file.read()` returns. -/
structure UploadFile where
  filename : Option String
  size : Option Nat
  contentLen : Nat
deriving Repr, DecidableEq

/-! ### Response values (each mirrors one `raise`/`return` site) -/

/-- Line 70-73: bad extension. -/
def unsupportedFormatResponse : HTTPError :=
  ⟨400, "Unsupported file format. Allowed formats: .mp3, .wav"⟩

/-- Lines 77-80 and 166-169: declared or actual size above the ceiling (the
two sites format the identical string). -/
def fileTooLargeResponse : HTTPError :=
  ⟨400, "File too large. Maximum size: " ++ toString (MAX_FILE_SIZE / (1024 * 1024)) ++ "MB"⟩

/-- Lines 129-132: the engine exceeded the 300 s timeout. -/
def processingTimeoutResponse : HTTPError :=
  ⟨408, "Processing timeout. Please try with a shorter audio file."⟩

/-- Lines 105-108: engine exited non-zero, as first raised inside the try. -/
def engineFailureRaw (stderr : String) : HTTPError :=
  ⟨500, "Audio separation failed: " ++ stderr⟩

/-- Lines 118-121: clean exit but an expected output file is missing, as
first raised inside the try. -/
def outputMissingRaw : HTTPError :=
  ⟨500, "Separation completed but output files not found"⟩

/-- Lines 133-138: the blanket `except Exception` rewraps anything raised in
the try body — including the two `HTTPException`s above — as a fresh 500. -/
def wrapGeneric (e : HTTPError) : HTTPError :=
  ⟨500, "Audio separation failed: " ++ httpExcStr e⟩

/-- The engine-failure response as the caller actually observes it (after
the rewrap). -/
def engineFailureResponse (stderr : String) : HTTPError :=
  wrapGeneric (engineFailureRaw stderr)

/-- The output-missing response as the caller actually observes it (after
the rewrap). -/
def outputMissingResponse : HTTPError := wrapGeneric outputMissingRaw

/-- Lines 191-196: `separate_audio`'s handler for non-`HTTPException`
exceptions (no such exception source is modelled; the value exists so that
distinguishability from it can be stated). -/
def unexpectedErrorResponse (msg : String) : HTTPError :=
  ⟨500, "An unexpected error occurred: " ++ msg⟩

/-- Line 210: unknown track kind. -/
def invalidTrackTypeResponse : HTTPError := ⟨400, "Invalid track type"⟩

/-- Line 215: session workspace missing. -/
def sessionNotFoundResponse : HTTPError := ⟨404, "Session not found or expired"⟩

/-- Line 220: workspace has no subdirectory. -/
def processedNotFoundResponse : HTTPError := ⟨404, "Processed files not found"⟩

/-- Line 232: the selected subdirectory lacks the requested stem file. -/
def trackFileNotFoundResponse (track_type : String) : HTTPError :=
  ⟨404, pyTitle track_type ++ " file not found"⟩

/-- Line 251: `shutil.rmtree` itself failed. -/
def cleanupFailedResponse : HTTPError := ⟨500, "Cleanup failed"⟩

/-- Line 248. -/
def removedMsg : String := "Session cleaned up successfully"

/-- Line 253. -/
def absentMsg : String := "Session not found or already cleaned up"

/-! ### `validate_audio_file` (lines 65-80) -/

/-- `validate_audio_file`: `some e` when it raises, `none` when it passes.
Extension first (from `Path(file.filename or "").suffix.lower()`), then the
cheap declared-size check (`hasattr(file, "size") and file.size and
file.size > MAX_FILE_SIZE`). -/
def validate_audio_file (file : UploadFile) : Option HTTPError :=
  if asciiLower (pySuffix (pyOrStr file.filename "")) ∉ ALLOWED_EXTENSIONS then
    some unsupportedFormatResponse
  else
    match file.size with
    | some s => if s ≠ 0 ∧ s > MAX_FILE_SIZE then some fileTooLargeResponse else none
    | none => none

/-! ### `run_spleeter_separation` (lines 82-138) -/

/-- What one `subprocess.run` of the engine did: either it hit the 300 s
timeout (`subprocess.TimeoutExpired`), or it exited with a return code and
captured stderr. -/
inductive EngineOutcome where
  | timeout
  | exited (returncode : Int) (stderr : String)
deriving Repr, DecidableEq

/-- Oracle for one engine invocation: its outcome plus the directories and
files the child process created under the workspace before finishing. -/
structure EngineRun where
  outcome : EngineOutcome
  newDirs : List FPath
  newFiles : List FPath
deriving Repr, DecidableEq

/-- Operation state: the filesystem plus a count of engine invocations (to
state the no-automatic-retry property). -/
structure St where
  fs : FS
  engineInvocations : Nat
deriving Repr, DecidableEq

/-- The two artifacts returned on success (lines 123-126). -/
structure SepFiles where
  vocals : FPath
  instrumental : FPath
deriving Repr, DecidableEq

/-- State after `subprocess.run` returns or is killed: the child's writes
are applied and the invocation count goes up by one. -/
def afterEngineRun (engine : EngineRun) (st : St) : St :=
  ⟨(st.fs.addDirs engine.newDirs).addFiles engine.newFiles,
   st.engineInvocations + 1⟩

/-- The expected vocals output path (lines 110-114):
`output_dir / input_file.stem / "vocals.wav"`. -/
def vocalsPath (input_file output_dir : FPath) : FPath :=
  output_dir ++ [pyStemOfName (input_file.getLastD ""), "vocals.wav"]

/-- The expected accompaniment output path (line 115). -/
def accompanimentPath (input_file output_dir : FPath) : FPath :=
  output_dir ++ [pyStemOfName (input_file.getLastD ""), "accompaniment.wav"]

/-- The try body after `subprocess.run` returned (lines 103-126): non-zero
exit raises, then both expected outputs must exist, else raises.  Errors
here are the raw `HTTPException`s, before the blanket handler rewraps
them. -/
def spleeter_try_body (input_file output_dir : FPath) (returncode : Int)
    (stderr : String) (fs : FS) : Except HTTPError SepFiles :=
  if returncode ≠ 0 then
    .error (engineFailureRaw stderr)
  else
    if ¬ fs.fileExists (vocalsPath input_file output_dir)
        ∨ ¬ fs.fileExists (accompanimentPath input_file output_dir) then
      .error outputMissingRaw
    else
      .ok ⟨vocalsPath input_file output_dir, accompanimentPath input_file output_dir⟩

/-- `run_spleeter_separation` (lines 82-138).  `subprocess.TimeoutExpired`
is caught by its own clause (408, not rewrapped, and by `subprocess.run`'s
contract the child has been killed); every `HTTPException` raised inside the
try falls into `except Exception` and is re-raised rewrapped. -/
def run_spleeter_separation (input_file output_dir : FPath) (engine : EngineRun)
    (st : St) : Except HTTPError SepFiles × St :=
  match engine.outcome with
  | .timeout => (.error processingTimeoutResponse, afterEngineRun engine st)
  | .exited rc stderr =>
      match spleeter_try_body input_file output_dir rc stderr (afterEngineRun engine st).fs with
      | .ok v => (.ok v, afterEngineRun engine st)
      | .error e => (.error (wrapGeneric e), afterEngineRun engine st)

/-! ### `separate_audio` (lines 140-203) -/

/-- The JSON body returned on success (lines 180-186). -/
structure SuccessResponse where
  session_id : String
  vocals_file : String
  instrumental_file : String
  original_filename : Option String
  message : String
deriving Repr, DecidableEq

/-- Lines 180-186. -/
def successResponse (session_id : String) (original_filename : Option String) :
    SuccessResponse :=
  ⟨session_id,
   "/download/" ++ session_id ++ "/vocals",
   "/download/" ++ session_id ++ "/instrumental",
   original_filename,
   "Separation completed successfully"⟩

/-- Line 158: `Path(file.filename or "audio.mp3").suffix` — not lowered. -/
def inputFileExt (file : UploadFile) : String :=
  pySuffix (pyOrStr file.filename "audio.mp3")

/-- Line 159: `session_temp_dir / f"input{file_ext}"`. -/
def inputFilePath (file : UploadFile) (session_id : String) : FPath :=
  sessionDir session_id ++ ["input" ++ inputFileExt file]

/-- Lines 151-152: state after `session_temp_dir.mkdir(exist_ok=True)`. -/
def mkSessionSt (session_id : String) (st : St) : St :=
  { st with fs := st.fs.mkdir (sessionDir session_id) }

/-- Lines 171-172: state after the uploaded bytes are written to the
workspace input file. -/
def inputSavedSt (file : UploadFile) (session_id : String) (st1 : St) : St :=
  { st1 with fs := st1.fs.writeFile (inputFilePath file session_id) }

/-- The try body of `separate_audio` (lines 156-186): authoritative size
check on the read bytes, save the input file, run the engine, build the
success response.  `except HTTPException: raise` (lines 188-190) re-raises
every modelled error unchanged. -/
def separate_body (file : UploadFile) (session_id : String) (engine : EngineRun)
    (st1 : St) : Except HTTPError SuccessResponse × St :=
  if file.contentLen > MAX_FILE_SIZE then
    (.error fileTooLargeResponse, st1)
  else
    match run_spleeter_separation (inputFilePath file session_id)
        (sessionDir session_id) engine (inputSavedSt file session_id st1) with
    | (.ok _, st2) => (.ok (successResponse session_id file.filename), st2)
    | (.error e, st2) => (.error e, st2)

/-- The `finally` block (lines 197-203): delete the input file if it exists;
a failing unlink (`unlinkOk = false`) is logged and swallowed, leaving the
state otherwise untouched and never changing the outcome. -/
def separate_finally (input_file : FPath) (unlinkOk : Bool) (st : St) : St :=
  if st.fs.fileExists input_file then
    if unlinkOk then { st with fs := st.fs.unlink input_file } else st
  else st

/-- `separate_audio` (lines 140-203): validation happens before any
filesystem effect; then the workspace is created, the body runs, and the
`finally` clause runs on every exit path. -/
def separate_audio (file : UploadFile) (session_id : String) (engine : EngineRun)
    (unlinkOk : Bool) (st : St) : Except HTTPError SuccessResponse × St :=
  match validate_audio_file file with
  | some e => (.error e, st)
  | none =>
      ((separate_body file session_id engine (mkSessionSt session_id st)).1,
       separate_finally (inputFilePath file session_id) unlinkOk
         (separate_body file session_id engine (mkSessionSt session_id st)).2)

/-! ### `download_track` (lines 205-238) -/

/-- Lines 224-229: the file path and download filename for a track kind
within the selected output directory. -/
def trackTarget (output_dir : FPath) (track_type : String) : FPath × String :=
  if track_type = "vocals" then (output_dir ++ ["vocals.wav"], "vocals.wav")
  else (output_dir ++ ["accompaniment.wav"], "instrumental.wav")

/-- `download_track`: resolves `(session_id, track_type)` to the file path
and download filename, or an error.  Note line 222: `output_dirs[0]` — the
first subdirectory in listing order is taken, with no ambiguity check. -/
def download_track (fs : FS) (session_id track_type : String) :
    Except HTTPError (FPath × String) :=
  if track_type ≠ "vocals" ∧ track_type ≠ "instrumental" then
    .error invalidTrackTypeResponse
  else if ¬ fs.dirExists (sessionDir session_id) then
    .error sessionNotFoundResponse
  else
    match fs.subdirs (sessionDir session_id) with
    | [] => .error processedNotFoundResponse
    | output_dir :: _ =>
        if fs.fileExists (trackTarget output_dir track_type).1 then
          .ok (trackTarget output_dir track_type)
        else .error (trackFileNotFoundResponse track_type)

/-! ### `cleanup_session` (lines 240-253) -/

/-- `cleanup_session`: recursive delete when the workspace exists
(`rmtreeOk` is the oracle for whether `shutil.rmtree` succeeds), success
message when it is already absent. -/
def cleanup_session (fs : FS) (session_id : String) (rmtreeOk : Bool) :
    Except HTTPError String × FS :=
  if fs.dirExists (sessionDir session_id) then
    if rmtreeOk then (.ok removedMsg, fs.rmtree (sessionDir session_id))
    else (.error cleanupFailedResponse, fs)
  else (.ok absentMsg, fs)

/-! ### Filesystem lemmas -/

theorem FS.files_mkdir (fs : FS) (p : FPath) : (fs.mkdir p).files = fs.files := by
  unfold FS.mkdir
  split <;> rfl

theorem FS.dirs_writeFile (fs : FS) (p : FPath) : (fs.writeFile p).dirs = fs.dirs := by
  unfold FS.writeFile
  split <;> rfl

theorem FS.dirs_unlink (fs : FS) (p : FPath) : (fs.unlink p).dirs = fs.dirs := rfl

theorem FS.mem_dirs_mkdir_self (fs : FS) (p : FPath) : p ∈ (fs.mkdir p).dirs := by
  unfold FS.mkdir
  split
  · assumption
  · exact List.mem_append.mpr (Or.inr (List.mem_singleton.mpr rfl))

theorem FS.mem_dirs_mkdir_of_mem (fs : FS) (p q : FPath) (h : q ∈ fs.dirs) :
    q ∈ (fs.mkdir p).dirs := by
  unfold FS.mkdir
  split
  · exact h
  · exact List.mem_append.mpr (Or.inl h)

theorem FS.mem_files_writeFile_self (fs : FS) (p : FPath) : p ∈ (fs.writeFile p).files := by
  unfold FS.writeFile
  split
  · assumption
  · exact List.mem_append.mpr (Or.inr (List.mem_singleton.mpr rfl))

theorem FS.mem_files_writeFile_of_mem (fs : FS) (p q : FPath) (h : q ∈ fs.files) :
    q ∈ (fs.writeFile p).files := by
  unfold FS.writeFile
  split
  · exact h
  · exact List.mem_append.mpr (Or.inl h)

theorem FS.files_addDirs (fs : FS) (l : List FPath) : (fs.addDirs l).files = fs.files := by
  induction l generalizing fs with
  | nil => rfl
  | cons p t ih =>
      rw [show FS.addDirs fs (p :: t) = FS.addDirs (fs.mkdir p) t from rfl, ih,
        FS.files_mkdir]

theorem FS.dirs_addFiles (fs : FS) (l : List FPath) : (fs.addFiles l).dirs = fs.dirs := by
  induction l generalizing fs with
  | nil => rfl
  | cons p t ih =>
      rw [show FS.addFiles fs (p :: t) = FS.addFiles (fs.writeFile p) t from rfl, ih,
        FS.dirs_writeFile]

theorem FS.mem_dirs_addDirs_of_mem (fs : FS) (l : List FPath) (q : FPath)
    (h : q ∈ fs.dirs) : q ∈ (fs.addDirs l).dirs := by
  induction l generalizing fs with
  | nil => exact h
  | cons p t ih =>
      rw [show FS.addDirs fs (p :: t) = FS.addDirs (fs.mkdir p) t from rfl]
      exact ih _ (FS.mem_dirs_mkdir_of_mem fs p q h)

theorem FS.mem_files_addFiles_of_mem (fs : FS) (l : List FPath) (q : FPath)
    (h : q ∈ fs.files) : q ∈ (fs.addFiles l).files := by
  induction l generalizing fs with
  | nil => exact h
  | cons p t ih =>
      rw [show FS.addFiles fs (p :: t) = FS.addFiles (fs.writeFile p) t from rfl]
      exact ih _ (FS.mem_files_writeFile_of_mem fs p q h)

theorem FS.not_mem_files_unlink (fs : FS) (p : FPath) : p ∉ (fs.unlink p).files := by
  intro h
  rcases List.mem_filter.mp h with ⟨-, hdec⟩
  simp at hdec

theorem FS.mem_files_unlink_of_ne (fs : FS) (p q : FPath) (h : q ∈ fs.files)
    (hne : q ≠ p) : q ∈ (fs.unlink p).files :=
  List.mem_filter.mpr ⟨h, by simpa using hne⟩

theorem FS.not_mem_dirs_rmtree_self (fs : FS) (p : FPath) : p ∉ (fs.rmtree p).dirs := by
  intro h
  rcases List.mem_filter.mp h with ⟨-, hdec⟩
  rw [decide_eq_true_eq] at hdec
  exact hdec (List.prefix_refl p)

/-! ### String lemmas for distinguishing response values -/

theorem string_data_append (a b : String) : (a ++ b).data = a.data ++ b.data := rfl

theorem string_append_assoc (a b c : String) : a ++ b ++ c = a ++ (b ++ c) :=
  String.ext (List.append_assoc a.data b.data c.data)

/-- A string with an unknown tail cannot equal a constant the head is not a
prefix of. -/
theorem append_right_ne (a b : String) (h : a.data.isPrefixOf b.data = false)
    (s : String) : a ++ s ≠ b := by
  intro he
  have hd : a.data ++ s.data = b.data := by
    have := congrArg String.data he
    rwa [string_data_append] at this
  have hp : a.data <+: b.data := ⟨s.data, hd⟩
  rw [← List.isPrefixOf_iff_prefix] at hp
  rw [h] at hp
  cases hp

/-- The head of every engine-failure response detail, after the blanket
handler's rewrap. -/
def efWrapHead : String := "Audio separation failed: 500: Audio separation failed: "

theorem engineFailureResponse_eq (s : String) :
    engineFailureResponse s = ⟨500, efWrapHead ++ s⟩ := by
  show HTTPError.mk 500
      ("Audio separation failed: " ++
        ((toString (500 : Nat) ++ ": ") ++ ("Audio separation failed: " ++ s)))
    = HTTPError.mk 500 (efWrapHead ++ s)
  rw [← string_append_assoc "Audio separation failed: " (toString (500 : Nat) ++ ": ")
    ("Audio separation failed: " ++ s)]
  rw [← string_append_assoc ("Audio separation failed: " ++ (toString (500 : Nat) ++ ": "))
    "Audio separation failed: " s]
  rw [show "Audio separation failed: " ++ (toString (500 : Nat) ++ ": ")
      ++ "Audio separation failed: " = efWrapHead by decide]

theorem outputMissingResponse_eq :
    outputMissingResponse
      = ⟨500, "Audio separation failed: 500: Separation completed but output files not found"⟩ := by
  decide

theorem outputMissing_ne_engineFailure (s : String) :
    outputMissingResponse ≠ engineFailureResponse s := by
  rw [outputMissingResponse_eq, engineFailureResponse_eq]
  intro h
  have hd : efWrapHead ++ s
      = "Audio separation failed: 500: Separation completed but output files not found" := by
    have := congrArg HTTPError.detail h
    exact this.symm
  exact append_right_ne efWrapHead _ (by decide) s hd

theorem outputMissing_ne_unexpected (m : String) :
    outputMissingResponse ≠ unexpectedErrorResponse m := by
  rw [outputMissingResponse_eq]
  intro h
  have hd : "An unexpected error occurred: " ++ m
      = "Audio separation failed: 500: Separation completed but output files not found" := by
    have := congrArg HTTPError.detail h
    exact this.symm
  exact append_right_ne "An unexpected error occurred: " _ (by decide) m hd

theorem processingTimeout_ne_engineFailure (s : String) :
    processingTimeoutResponse ≠ engineFailureResponse s := by
  rw [engineFailureResponse_eq]
  intro h
  have := congrArg HTTPError.status_code h
  simp [processingTimeoutResponse] at this

theorem processingTimeout_ne_unexpected (m : String) :
    processingTimeoutResponse ≠ unexpectedErrorResponse m := by
  intro h
  have := congrArg HTTPError.status_code h
  simp [processingTimeoutResponse, unexpectedErrorResponse] at this


/-! ### Structural lemmas about the handlers -/

theorem spleeter_try_body_fail (input_file output_dir : FPath) (rc : Int)
    (stderr : String) (fs : FS) (hrc : rc ≠ 0) :
    spleeter_try_body input_file output_dir rc stderr fs
      = .error (engineFailureRaw stderr) := by
  unfold spleeter_try_body
  rw [if_pos hrc]

theorem spleeter_try_body_missing (input_file output_dir : FPath)
    (stderr : String) (fs : FS)
    (hmiss : ¬ fs.fileExists (vocalsPath input_file output_dir)
        ∨ ¬ fs.fileExists (accompanimentPath input_file output_dir)) :
    spleeter_try_body input_file output_dir 0 stderr fs = .error outputMissingRaw := by
  unfold spleeter_try_body
  rw [if_neg (by simp : ¬ (0 : Int) ≠ 0), if_pos hmiss]

theorem spleeter_try_body_ok (input_file output_dir : FPath)
    (stderr : String) (fs : FS)
    (hv : fs.fileExists (vocalsPath input_file output_dir))
    (ha : fs.fileExists (accompanimentPath input_file output_dir)) :
    spleeter_try_body input_file output_dir 0 stderr fs
      = .ok ⟨vocalsPath input_file output_dir, accompanimentPath input_file output_dir⟩ := by
  unfold spleeter_try_body
  rw [if_neg (by simp : ¬ (0 : Int) ≠ 0), if_neg (by simp [hv, ha])]

theorem run_spleeter_eq_timeout (input_file output_dir : FPath) (engine : EngineRun)
    (st : St) (ht : engine.outcome = .timeout) :
    run_spleeter_separation input_file output_dir engine st
      = (.error processingTimeoutResponse, afterEngineRun engine st) := by
  unfold run_spleeter_separation
  rw [ht]

theorem run_spleeter_eq_exited (input_file output_dir : FPath) (engine : EngineRun)
    (st : St) (rc : Int) (stderr : String)
    (ho : engine.outcome = .exited rc stderr) :
    run_spleeter_separation input_file output_dir engine st
      = (match spleeter_try_body input_file output_dir rc stderr (afterEngineRun engine st).fs with
         | .ok v => (.ok v, afterEngineRun engine st)
         | .error e => (.error (wrapGeneric e), afterEngineRun engine st)) := by
  unfold run_spleeter_separation
  rw [ho]

theorem run_spleeter_snd (input_file output_dir : FPath) (engine : EngineRun)
    (st : St) :
    (run_spleeter_separation input_file output_dir engine st).2
      = afterEngineRun engine st := by
  cases ho : engine.outcome with
  | timeout => rw [run_spleeter_eq_timeout input_file output_dir engine st ho]
  | exited rc stderr =>
      rw [run_spleeter_eq_exited input_file output_dir engine st rc stderr ho]
      cases spleeter_try_body input_file output_dir rc stderr (afterEngineRun engine st).fs <;> rfl

theorem separate_body_oversize (file : UploadFile) (session_id : String)
    (engine : EngineRun) (st1 : St) (h : file.contentLen > MAX_FILE_SIZE) :
    separate_body file session_id engine st1 = (.error fileTooLargeResponse, st1) := by
  unfold separate_body
  rw [if_pos h]

theorem separate_body_timeout (file : UploadFile) (session_id : String)
    (engine : EngineRun) (st1 : St) (hsz : ¬ file.contentLen > MAX_FILE_SIZE)
    (ht : engine.outcome = .timeout) :
    separate_body file session_id engine st1
      = (.error processingTimeoutResponse,
         afterEngineRun engine (inputSavedSt file session_id st1)) := by
  unfold separate_body
  rw [if_neg hsz, run_spleeter_eq_timeout _ _ _ _ ht]

theorem separate_body_engineFailure (file : UploadFile) (session_id : String)
    (engine : EngineRun) (st1 : St) (rc : Int) (stderr : String)
    (hsz : ¬ file.contentLen > MAX_FILE_SIZE)
    (ho : engine.outcome = .exited rc stderr) (hrc : rc ≠ 0) :
    separate_body file session_id engine st1
      = (.error (engineFailureResponse stderr),
         afterEngineRun engine (inputSavedSt file session_id st1)) := by
  unfold separate_body
  rw [if_neg hsz, run_spleeter_eq_exited _ _ _ _ _ _ ho,
    spleeter_try_body_fail _ _ _ _ _ hrc]
  rfl

theorem separate_body_outputMissing (file : UploadFile) (session_id : String)
    (engine : EngineRun) (st1 : St) (stderr : String)
    (hsz : ¬ file.contentLen > MAX_FILE_SIZE)
    (ho : engine.outcome = .exited 0 stderr)
    (hmiss : ¬ (afterEngineRun engine (inputSavedSt file session_id st1)).fs.fileExists
          (vocalsPath (inputFilePath file session_id) (sessionDir session_id))
        ∨ ¬ (afterEngineRun engine (inputSavedSt file session_id st1)).fs.fileExists
          (accompanimentPath (inputFilePath file session_id) (sessionDir session_id))) :
    separate_body file session_id engine st1
      = (.error outputMissingResponse,
         afterEngineRun engine (inputSavedSt file session_id st1)) := by
  unfold separate_body
  rw [if_neg hsz, run_spleeter_eq_exited _ _ _ _ _ _ ho,
    spleeter_try_body_missing _ _ _ _ hmiss]
  rfl

theorem separate_body_success (file : UploadFile) (session_id : String)
    (engine : EngineRun) (st1 : St) (stderr : String)
    (hsz : ¬ file.contentLen > MAX_FILE_SIZE)
    (ho : engine.outcome = .exited 0 stderr)
    (hv : (afterEngineRun engine (inputSavedSt file session_id st1)).fs.fileExists
        (vocalsPath (inputFilePath file session_id) (sessionDir session_id)))
    (ha : (afterEngineRun engine (inputSavedSt file session_id st1)).fs.fileExists
        (accompanimentPath (inputFilePath file session_id) (sessionDir session_id))) :
    separate_body file session_id engine st1
      = (.ok (successResponse session_id file.filename),
         afterEngineRun engine (inputSavedSt file session_id st1)) := by
  unfold separate_body
  rw [if_neg hsz, run_spleeter_eq_exited _ _ _ _ _ _ ho,
    spleeter_try_body_ok _ _ _ _ hv ha]

/-- Every error `separate_body` can return is one of four session-id-free
shapes. -/
theorem separate_body_error_cases (file : UploadFile) (session_id : String)
    (engine : EngineRun) (st1 : St) (e : HTTPError)
    (h : (separate_body file session_id engine st1).1 = .error e) :
    e = fileTooLargeResponse ∨ e = processingTimeoutResponse
      ∨ e = outputMissingResponse ∨ ∃ s, e = engineFailureResponse s := by
  by_cases hsz : file.contentLen > MAX_FILE_SIZE
  · rw [separate_body_oversize file session_id engine st1 hsz] at h
    exact Or.inl (Except.error.inj h).symm
  · cases ho : engine.outcome with
    | timeout =>
        rw [separate_body_timeout file session_id engine st1 hsz ho] at h
        exact Or.inr (Or.inl (Except.error.inj h).symm)
    | exited rc stderr =>
        by_cases hrc : rc = 0
        · subst hrc
          by_cases hv : (afterEngineRun engine (inputSavedSt file session_id st1)).fs.fileExists
              (vocalsPath (inputFilePath file session_id) (sessionDir session_id))
          · by_cases ha : (afterEngineRun engine (inputSavedSt file session_id st1)).fs.fileExists
                (accompanimentPath (inputFilePath file session_id) (sessionDir session_id))
            · rw [separate_body_success file session_id engine st1 stderr hsz ho hv ha] at h
              cases h
            · rw [separate_body_outputMissing file session_id engine st1 stderr hsz ho
                (Or.inr ha)] at h
              exact Or.inr (Or.inr (Or.inl (Except.error.inj h).symm))
          · rw [separate_body_outputMissing file session_id engine st1 stderr hsz ho
              (Or.inl hv)] at h
            exact Or.inr (Or.inr (Or.inl (Except.error.inj h).symm))
        · rw [separate_body_engineFailure file session_id engine st1 rc stderr hsz ho hrc] at h
          exact Or.inr (Or.inr (Or.inr ⟨stderr, (Except.error.inj h).symm⟩))

theorem separate_body_snd (file : UploadFile) (session_id : String)
    (engine : EngineRun) (st1 : St) :
    (separate_body file session_id engine st1).2 = st1
      ∨ (separate_body file session_id engine st1).2
          = afterEngineRun engine (inputSavedSt file session_id st1) := by
  unfold separate_body
  split
  · exact Or.inl rfl
  · right
    split
    next v st2 heq =>
      have := congrArg Prod.snd heq
      rw [run_spleeter_snd] at this
      exact this.symm
    next e st2 heq =>
      have := congrArg Prod.snd heq
      rw [run_spleeter_snd] at this
      exact this.symm

theorem mem_files_afterEngineRun (engine : EngineRun) (st : St) (q : FPath)
    (h : q ∈ st.fs.files) : q ∈ (afterEngineRun engine st).fs.files := by
  unfold afterEngineRun
  apply FS.mem_files_addFiles_of_mem
  rw [FS.files_addDirs]
  exact h

theorem mem_dirs_afterEngineRun (engine : EngineRun) (st : St) (q : FPath)
    (h : q ∈ st.fs.dirs) : q ∈ (afterEngineRun engine st).fs.dirs := by
  unfold afterEngineRun
  show q ∈ ((st.fs.addDirs engine.newDirs).addFiles engine.newFiles).dirs
  rw [FS.dirs_addFiles]
  exact FS.mem_dirs_addDirs_of_mem _ _ _ h

theorem separate_body_mem_files (file : UploadFile) (session_id : String)
    (engine : EngineRun) (st1 : St) (q : FPath) (h : q ∈ st1.fs.files) :
    q ∈ (separate_body file session_id engine st1).2.fs.files := by
  rcases separate_body_snd file session_id engine st1 with h2 | h2 <;> rw [h2]
  · exact h
  · apply mem_files_afterEngineRun
    exact FS.mem_files_writeFile_of_mem _ _ _ h

theorem separate_body_mem_dirs (file : UploadFile) (session_id : String)
    (engine : EngineRun) (st1 : St) (q : FPath) (h : q ∈ st1.fs.dirs) :
    q ∈ (separate_body file session_id engine st1).2.fs.dirs := by
  rcases separate_body_snd file session_id engine st1 with h2 | h2 <;> rw [h2]
  · exact h
  · apply mem_dirs_afterEngineRun
    show q ∈ (st1.fs.writeFile (inputFilePath file session_id)).dirs
    rw [FS.dirs_writeFile]
    exact h

theorem separate_finally_invocations (p : FPath) (unlinkOk : Bool) (st : St) :
    (separate_finally p unlinkOk st).engineInvocations = st.engineInvocations := by
  unfold separate_finally
  split
  · split <;> rfl
  · rfl

theorem separate_finally_dirs (p : FPath) (unlinkOk : Bool) (st : St) :
    (separate_finally p unlinkOk st).fs.dirs = st.fs.dirs := by
  unfold separate_finally
  split
  · split
    · exact FS.dirs_unlink st.fs p
    · rfl
  · rfl

theorem separate_finally_removes (p : FPath) (st : St) :
    p ∉ (separate_finally p true st).fs.files := by
  unfold separate_finally
  split
  · rw [if_pos rfl]
    exact FS.not_mem_files_unlink st.fs p
  · assumption

theorem separate_finally_mem_files_of_ne (p q : FPath) (unlinkOk : Bool) (st : St)
    (h : q ∈ st.fs.files) (hne : q ≠ p) :
    q ∈ (separate_finally p unlinkOk st).fs.files := by
  unfold separate_finally
  split
  · split
    · exact FS.mem_files_unlink_of_ne st.fs p q h hne
    · exact h
  · exact h

theorem mkSessionSt_files (session_id : String) (st : St) :
    (mkSessionSt session_id st).fs.files = st.fs.files :=
  FS.files_mkdir st.fs (sessionDir session_id)

theorem mkSessionSt_invocations (session_id : String) (st : St) :
    (mkSessionSt session_id st).engineInvocations = st.engineInvocations := rfl

theorem mkSessionSt_mem_dir (session_id : String) (st : St) :
    sessionDir session_id ∈ (mkSessionSt session_id st).fs.dirs :=
  FS.mem_dirs_mkdir_self st.fs (sessionDir session_id)

theorem separate_audio_validate_some (file : UploadFile) (session_id : String)
    (engine : EngineRun) (unlinkOk : Bool) (st : St) (e : HTTPError)
    (h : validate_audio_file file = some e) :
    separate_audio file session_id engine unlinkOk st = (.error e, st) := by
  unfold separate_audio
  rw [h]

theorem separate_audio_eq (file : UploadFile) (session_id : String)
    (engine : EngineRun) (unlinkOk : Bool) (st : St)
    (h : validate_audio_file file = none) :
    separate_audio file session_id engine unlinkOk st
      = ((separate_body file session_id engine (mkSessionSt session_id st)).1,
         separate_finally (inputFilePath file session_id) unlinkOk
           (separate_body file session_id engine (mkSessionSt session_id st)).2) := by
  unfold separate_audio
  rw [h]

theorem validate_badext (file : UploadFile)
    (hext : asciiLower (pySuffix (pyOrStr file.filename "")) ∉ ALLOWED_EXTENSIONS) :
    validate_audio_file file = some unsupportedFormatResponse := by
  unfold validate_audio_file
  rw [if_pos hext]

theorem validate_some_of_ext_ok (file : UploadFile) (e : HTTPError)
    (hext : asciiLower (pySuffix (pyOrStr file.filename "")) ∈ ALLOWED_EXTENSIONS)
    (h : validate_audio_file file = some e) : e = fileTooLargeResponse := by
  unfold validate_audio_file at h
  rw [if_neg (by simpa using hext)] at h
  rcases hs : file.size with - | s
  · rw [hs] at h
    cases h
  · simp only [hs] at h
    by_cases hb : s ≠ 0 ∧ s > MAX_FILE_SIZE
    · rw [if_pos hb] at h
      exact (Option.some.inj h).symm
    · rw [if_neg hb] at h
      cases h

/-- Shared by the bad-extension claims: a disallowed (or empty) extension is
rejected with no state change at all. -/
theorem separate_audio_badext (file : UploadFile) (session_id : String)
    (engine : EngineRun) (unlinkOk : Bool) (st : St)
    (hext : asciiLower (pySuffix (pyOrStr file.filename "")) ∉ ALLOWED_EXTENSIONS) :
    separate_audio file session_id engine unlinkOk st
      = (.error unsupportedFormatResponse, st) :=
  separate_audio_validate_some file session_id engine unlinkOk st _
    (validate_badext file hext)

theorem separate_audio_fst (file : UploadFile) (session_id : String)
    (engine : EngineRun) (unlinkOk : Bool) (st : St)
    (h : validate_audio_file file = none) :
    (separate_audio file session_id engine unlinkOk st).1
      = (separate_body file session_id engine (mkSessionSt session_id st)).1 := by
  rw [separate_audio_eq file session_id engine unlinkOk st h]

theorem separate_audio_snd (file : UploadFile) (session_id : String)
    (engine : EngineRun) (unlinkOk : Bool) (st : St)
    (h : validate_audio_file file = none) :
    (separate_audio file session_id engine unlinkOk st).2
      = separate_finally (inputFilePath file session_id) unlinkOk
          (separate_body file session_id engine (mkSessionSt session_id st)).2 := by
  rw [separate_audio_eq file session_id engine unlinkOk st h]

theorem spleeter_try_body_ok_inv (input_file output_dir : FPath) (rc : Int)
    (stderr : String) (fs : FS) (v : SepFiles)
    (h : spleeter_try_body input_file output_dir rc stderr fs = .ok v) :
    v.vocals = vocalsPath input_file output_dir
    ∧ v.instrumental = accompanimentPath input_file output_dir
    ∧ fs.fileExists (vocalsPath input_file output_dir)
    ∧ fs.fileExists (accompanimentPath input_file output_dir) := by
  unfold spleeter_try_body at h
  by_cases hrc : rc ≠ 0
  · rw [if_pos hrc] at h
    exact Except.noConfusion h
  · rw [if_neg hrc] at h
    by_cases hm : ¬ fs.fileExists (vocalsPath input_file output_dir)
        ∨ ¬ fs.fileExists (accompanimentPath input_file output_dir)
    · rw [if_pos hm] at h
      exact Except.noConfusion h
    · rw [if_neg hm] at h
      push_neg at hm
      have hv := Except.ok.inj h
      exact ⟨by rw [← hv], by rw [← hv], hm.1, hm.2⟩

/-! ### Claims -/

/-- C3: every upload whose actual byte length exceeds the 50 MiB ceiling is
rejected with the InvalidInput size response, for every declared size
attribute (absent, understated, or anything else): the authoritative check
on the read body always runs after the cheap declared-metadata check. -/
theorem C3_actual_size_always_rejected (file : UploadFile) (session_id : String)
    (engine : EngineRun) (unlinkOk : Bool) (st : St)
    (hbig : file.contentLen > MAX_FILE_SIZE)
    (hext : asciiLower (pySuffix (pyOrStr file.filename "")) ∈ ALLOWED_EXTENSIONS) :
    (separate_audio file session_id engine unlinkOk st).1
      = .error fileTooLargeResponse := by
  rcases hv : validate_audio_file file with - | e
  · rw [separate_audio_fst file session_id engine unlinkOk st hv,
      separate_body_oversize _ _ _ _ hbig]
  · rw [separate_audio_validate_some file session_id engine unlinkOk st e hv,
      validate_some_of_ext_ok file e hext hv]

/-- C3 witness: a 50 MiB + 1 upload with no declared size attribute is
rejected with the size response. -/
theorem C3_witness :
    (separate_audio ⟨some "song.mp3", none, MAX_FILE_SIZE + 1⟩ "s"
        ⟨.timeout, [], []⟩ true ⟨⟨[["tmp"]], []⟩, 0⟩).1
      = .error fileTooLargeResponse :=
  C3_actual_size_always_rejected ⟨some "song.mp3", none, MAX_FILE_SIZE + 1⟩ "s"
    ⟨.timeout, [], []⟩ true ⟨⟨[["tmp"]], []⟩, 0⟩ (by decide) (by decide)

/-- C4: an upload whose extension (lowercased) is not in {.mp3, .wav} is
rejected with InvalidInput and the whole state — filesystem included — is
returned unchanged: no workspace directory is created and no file is
written. -/
theorem C4_badext_rejected_no_state_change (file : UploadFile) (session_id : String)
    (engine : EngineRun) (unlinkOk : Bool) (st : St)
    (hext : asciiLower (pySuffix (pyOrStr file.filename "")) ∉ ALLOWED_EXTENSIONS) :
    separate_audio file session_id engine unlinkOk st
      = (.error unsupportedFormatResponse, st) :=
  separate_audio_badext file session_id engine unlinkOk st hext

/-- C4 witness: `song.ogg` is rejected and the filesystem is untouched. -/
theorem C4_witness :
    separate_audio ⟨some "song.ogg", none, 3⟩ "s" ⟨.timeout, [], []⟩ true
        ⟨⟨[["tmp"]], []⟩, 0⟩
      = (.error unsupportedFormatResponse, ⟨⟨[["tmp"]], []⟩, 0⟩) :=
  C4_badext_rejected_no_state_change ⟨some "song.ogg", none, 3⟩ "s"
    ⟨.timeout, [], []⟩ true ⟨⟨[["tmp"]], []⟩, 0⟩ (by decide)

/-- C9: an upload with no filename at all, or whose filename has no
extension, gets the empty suffix, which is not in the allowed set, so it is
rejected with the bad-extension InvalidInput response (state unchanged). -/
theorem C9_no_filename_or_no_extension_rejected (file : UploadFile)
    (session_id : String) (engine : EngineRun) (unlinkOk : Bool) (st : St)
    (h : file.filename = none ∨ pySuffix (pyOrStr file.filename "") = "") :
    separate_audio file session_id engine unlinkOk st
      = (.error unsupportedFormatResponse, st) := by
  apply separate_audio_badext
  rcases h with h | h
  · rw [h]
    decide
  · rw [h]
    decide

/-- C9 witness: a missing filename is rejected with the bad-extension
response. -/
theorem C9_witness :
    separate_audio ⟨none, none, 3⟩ "s" ⟨.timeout, [], []⟩ true
        ⟨⟨[["tmp"]], []⟩, 0⟩
      = (.error unsupportedFormatResponse, ⟨⟨[["tmp"]], []⟩, 0⟩) :=
  C9_no_filename_or_no_extension_rejected ⟨none, none, 3⟩ "s"
    ⟨.timeout, [], []⟩ true ⟨⟨[["tmp"]], []⟩, 0⟩ (Or.inl rfl)

/-- C5: a track kind outside {vocals, instrumental} yields the
InvalidTrackKind response on every filesystem (workspace present or not),
and that response differs from the session-not-found, processed-not-found
and per-track not-found responses. -/
theorem C5_invalid_track_kind_distinct (fs : FS) (session_id track_type : String)
    (h : track_type ≠ "vocals" ∧ track_type ≠ "instrumental") :
    download_track fs session_id track_type = .error invalidTrackTypeResponse
    ∧ invalidTrackTypeResponse ≠ sessionNotFoundResponse
    ∧ invalidTrackTypeResponse ≠ processedNotFoundResponse
    ∧ ∀ t, invalidTrackTypeResponse ≠ trackFileNotFoundResponse t := by
  refine ⟨?_, by decide, by decide, ?_⟩
  · unfold download_track
    rw [if_pos h]
  · intro t hEq
    have := congrArg HTTPError.status_code hEq
    simp [invalidTrackTypeResponse, trackFileNotFoundResponse] at this

/-- C5 witness: `trackKind="bassline"` on a filesystem that does hold the
session workspace still yields the invalid-track response. -/
theorem C5_witness :
    download_track ⟨[["tmp"], ["tmp", "vocal_remover_s"]], []⟩ "s" "bassline"
      = .error invalidTrackTypeResponse :=
  (C5_invalid_track_kind_distinct ⟨[["tmp"], ["tmp", "vocal_remover_s"]], []⟩
    "s" "bassline" (by decide)).1

/-- C6: cleanup twice in a row succeeds both times — the first call (when
the workspace exists and the recursive delete succeeds) reports removal, the
second reports the distinguishable already-absent success; cleanup of a
never-existing session also reports already-absent. -/
theorem C6_cleanup_idempotent (fs : FS) (session_id : String) :
    (sessionDir session_id ∈ fs.dirs →
      (cleanup_session fs session_id true).1 = .ok removedMsg)
    ∧ (sessionDir session_id ∉ fs.dirs →
      (cleanup_session fs session_id true).1 = .ok absentMsg)
    ∧ (cleanup_session (cleanup_session fs session_id true).2 session_id true).1
        = .ok absentMsg
    ∧ removedMsg ≠ absentMsg := by
  refine ⟨?_, ?_, ?_, by decide⟩
  · intro h
    unfold cleanup_session
    rw [if_pos (show fs.dirExists (sessionDir session_id) from h), if_pos rfl]
  · intro h
    unfold cleanup_session
    rw [if_neg (show ¬ fs.dirExists (sessionDir session_id) from h)]
  · by_cases h : fs.dirExists (sessionDir session_id)
    · have hsnd : (cleanup_session fs session_id true).2
          = fs.rmtree (sessionDir session_id) := by
        unfold cleanup_session
        rw [if_pos h, if_pos rfl]
      rw [hsnd]
      unfold cleanup_session
      rw [if_neg (show ¬ (fs.rmtree (sessionDir session_id)).dirExists (sessionDir session_id)
        from FS.not_mem_dirs_rmtree_self fs (sessionDir session_id))]
    · have hsnd : (cleanup_session fs session_id true).2 = fs := by
        unfold cleanup_session
        rw [if_neg h]
      rw [hsnd]
      unfold cleanup_session
      rw [if_neg h]

/-- C6 witness: double cleanup of an existing session — removed, then
already-absent. -/
theorem C6_witness :
    (cleanup_session ⟨[["tmp"], ["tmp", "vocal_remover_s"]], []⟩ "s" true).1
        = .ok removedMsg
    ∧ (cleanup_session
        (cleanup_session ⟨[["tmp"], ["tmp", "vocal_remover_s"]], []⟩ "s" true).2
        "s" true).1 = .ok absentMsg :=
  ⟨(C6_cleanup_idempotent ⟨[["tmp"], ["tmp", "vocal_remover_s"]], []⟩ "s").1 (by decide),
   (C6_cleanup_idempotent ⟨[["tmp"], ["tmp", "vocal_remover_s"]], []⟩ "s").2.2.1⟩

/-- C7: once a request passes validation (the only gate before the try
block), the transient input file is absent from the final filesystem on
every exit path — success, engine failure, output missing, timeout — when
the deletion step works; and whether that deletion step works or not never
changes the operation's outcome. -/
theorem C7_input_file_cleanup (file : UploadFile) (session_id : String)
    (engine : EngineRun) (st : St)
    (hval : validate_audio_file file = none) :
    inputFilePath file session_id
        ∉ (separate_audio file session_id engine true st).2.fs.files
    ∧ ∀ unlinkOk : Bool,
        (separate_audio file session_id engine unlinkOk st).1
          = (separate_audio file session_id engine true st).1 := by
  constructor
  · rw [separate_audio_snd file session_id engine true st hval]
    exact separate_finally_removes _ _
  · intro unlinkOk
    rw [separate_audio_fst file session_id engine unlinkOk st hval,
      separate_audio_fst file session_id engine true st hval]

/-- C7 witness: a successful run leaves no input file behind, and a failing
unlink leaves the outcome unchanged. -/
theorem C7_witness :
    inputFilePath ⟨some "song.mp3", none, 3⟩ "s"
        ∉ (separate_audio ⟨some "song.mp3", none, 3⟩ "s"
            ⟨.exited 0 "", [["tmp", "vocal_remover_s", "input"]],
             [["tmp", "vocal_remover_s", "input", "vocals.wav"],
              ["tmp", "vocal_remover_s", "input", "accompaniment.wav"]]⟩ true
            ⟨⟨[["tmp"]], []⟩, 0⟩).2.fs.files
    ∧ (separate_audio ⟨some "song.mp3", none, 3⟩ "s"
          ⟨.exited 0 "", [["tmp", "vocal_remover_s", "input"]],
           [["tmp", "vocal_remover_s", "input", "vocals.wav"],
            ["tmp", "vocal_remover_s", "input", "accompaniment.wav"]]⟩ false
          ⟨⟨[["tmp"]], []⟩, 0⟩).1
        = (separate_audio ⟨some "song.mp3", none, 3⟩ "s"
            ⟨.exited 0 "", [["tmp", "vocal_remover_s", "input"]],
             [["tmp", "vocal_remover_s", "input", "vocals.wav"],
              ["tmp", "vocal_remover_s", "input", "accompaniment.wav"]]⟩ true
            ⟨⟨[["tmp"]], []⟩, 0⟩).1 :=
  ⟨(C7_input_file_cleanup ⟨some "song.mp3", none, 3⟩ "s"
      ⟨.exited 0 "", [["tmp", "vocal_remover_s", "input"]],
       [["tmp", "vocal_remover_s", "input", "vocals.wav"],
        ["tmp", "vocal_remover_s", "input", "accompaniment.wav"]]⟩
      ⟨⟨[["tmp"]], []⟩, 0⟩ (by decide)).1,
   (C7_input_file_cleanup ⟨some "song.mp3", none, 3⟩ "s"
      ⟨.exited 0 "", [["tmp", "vocal_remover_s", "input"]],
       [["tmp", "vocal_remover_s", "input", "vocals.wav"],
        ["tmp", "vocal_remover_s", "input", "accompaniment.wav"]]⟩
      ⟨⟨[["tmp"]], []⟩, 0⟩ (by decide)).2 false⟩

/-- C8: when the engine run hits the 300 s timeout, the request fails with
the ProcessingTimeout response (distinct from the engine-failure,
output-missing and generic-error responses), and the engine was invoked
exactly once — there is no automatic retry.  (That the child process itself
is killed before `subprocess.TimeoutExpired` propagates is `subprocess.run`'s
documented contract, reflected in the model by the run step returning at
all.) -/
theorem C8_timeout_no_retry (file : UploadFile) (session_id : String)
    (engine : EngineRun) (unlinkOk : Bool) (st : St)
    (hval : validate_audio_file file = none)
    (hsz : ¬ file.contentLen > MAX_FILE_SIZE)
    (ht : engine.outcome = .timeout) :
    (separate_audio file session_id engine unlinkOk st).1
        = .error processingTimeoutResponse
    ∧ (separate_audio file session_id engine unlinkOk st).2.engineInvocations
        = st.engineInvocations + 1
    ∧ (∀ s, processingTimeoutResponse ≠ engineFailureResponse s)
    ∧ processingTimeoutResponse ≠ outputMissingResponse
    ∧ ∀ m, processingTimeoutResponse ≠ unexpectedErrorResponse m := by
  refine ⟨?_, ?_, processingTimeout_ne_engineFailure, by decide,
    processingTimeout_ne_unexpected⟩
  · rw [separate_audio_fst file session_id engine unlinkOk st hval,
      separate_body_timeout file session_id engine (mkSessionSt session_id st) hsz ht]
  · rw [separate_audio_snd file session_id engine unlinkOk st hval,
      separate_body_timeout file session_id engine (mkSessionSt session_id st) hsz ht,
      separate_finally_invocations]
    rfl

/-- C8 witness: a concrete timed-out run yields the 408 response and one
invocation. -/
theorem C8_witness :
    (separate_audio ⟨some "song.mp3", none, 3⟩ "s" ⟨.timeout, [], []⟩ true
        ⟨⟨[["tmp"]], []⟩, 0⟩).1 = .error processingTimeoutResponse
    ∧ (separate_audio ⟨some "song.mp3", none, 3⟩ "s" ⟨.timeout, [], []⟩ true
        ⟨⟨[["tmp"]], []⟩, 0⟩).2.engineInvocations = 0 + 1 :=
  ⟨(C8_timeout_no_retry ⟨some "song.mp3", none, 3⟩ "s" ⟨.timeout, [], []⟩ true
      ⟨⟨[["tmp"]], []⟩, 0⟩ (by decide) (by decide) rfl).1,
   (C8_timeout_no_retry ⟨some "song.mp3", none, 3⟩ "s" ⟨.timeout, [], []⟩ true
      ⟨⟨[["tmp"]], []⟩, 0⟩ (by decide) (by decide) rfl).2.1⟩

/-- C2: when the engine exits 0 but either expected stem file is missing,
`run_spleeter_separation` returns the output-missing response — a value
distinct from every engine-failure response, from the timeout response and
from every generic unexpected-error response (in the code it is first raised
as its own `HTTPException` and then rewrapped by the blanket handler, which
preserves distinguishability of the final response value) — and no run ever
returns a single stem: every success carries both expected paths and both
files exist. -/
theorem C2_output_missing_distinct (input_file output_dir : FPath)
    (engine : EngineRun) (st : St) (stderr : String)
    (hexit : engine.outcome = .exited 0 stderr)
    (hmiss : ¬ (afterEngineRun engine st).fs.fileExists (vocalsPath input_file output_dir)
        ∨ ¬ (afterEngineRun engine st).fs.fileExists (accompanimentPath input_file output_dir)) :
    (run_spleeter_separation input_file output_dir engine st).1
        = .error outputMissingResponse
    ∧ (∀ s, outputMissingResponse ≠ engineFailureResponse s)
    ∧ outputMissingResponse ≠ processingTimeoutResponse
    ∧ (∀ m, outputMissingResponse ≠ unexpectedErrorResponse m)
    ∧ ∀ (i o : FPath) (er : EngineRun) (s0 s1 : St) (v : SepFiles),
        run_spleeter_separation i o er s0 = (.ok v, s1) →
        v.vocals = vocalsPath i o ∧ v.instrumental = accompanimentPath i o
          ∧ s1.fs.fileExists v.vocals ∧ s1.fs.fileExists v.instrumental := by
  refine ⟨?_, outputMissing_ne_engineFailure, by decide, outputMissing_ne_unexpected, ?_⟩
  · rw [run_spleeter_eq_exited input_file output_dir engine st 0 stderr hexit,
      spleeter_try_body_missing _ _ _ _ hmiss]
    rfl
  · intro i o er s0 s1 v h
    cases ho : er.outcome with
    | timeout =>
        rw [run_spleeter_eq_timeout i o er s0 ho] at h
        exact Except.noConfusion (congrArg Prod.fst h)
    | exited rc stderr2 =>
        rw [run_spleeter_eq_exited i o er s0 rc stderr2 ho] at h
        cases htb : spleeter_try_body i o rc stderr2 (afterEngineRun er s0).fs with
        | error e =>
            rw [htb] at h
            exact Except.noConfusion (congrArg Prod.fst h)
        | ok v2 =>
            rw [htb] at h
            have h2 : afterEngineRun er s0 = s1 := congrArg Prod.snd h
            have hv2 : v2 = v := Except.ok.inj (congrArg Prod.fst h)
            obtain ⟨hvv, hvi, hfv, hfa⟩ := spleeter_try_body_ok_inv i o rc stderr2 _ v2 htb
            subst h2
            subst hv2
            exact ⟨hvv, hvi, by rw [hvv]; exact hfv, by rw [hvi]; exact hfa⟩

/-- C2 witness: a clean exit that wrote nothing yields the output-missing
response. -/
theorem C2_witness :
    (run_spleeter_separation ["tmp", "vocal_remover_w", "input.mp3"]
        ["tmp", "vocal_remover_w"] ⟨.exited 0 "", [], []⟩ ⟨⟨[], []⟩, 0⟩).1
      = .error outputMissingResponse :=
  (C2_output_missing_distinct ["tmp", "vocal_remover_w", "input.mp3"]
    ["tmp", "vocal_remover_w"] ⟨.exited 0 "", [], []⟩ ⟨⟨[], []⟩, 0⟩ "" rfl
    (Or.inl (by decide))).1

/-- C10: when a validated request fails, the workspace directory is still
present in the final filesystem, nothing but the transient input file has
been removed from the files that existed before the request, and the error
value is one of four shapes none of which is built from the session id — so
the failure response carries no session id. -/
theorem C10_failure_keeps_workspace (file : UploadFile) (session_id : String)
    (engine : EngineRun) (unlinkOk : Bool) (st : St) (e : HTTPError)
    (hval : validate_audio_file file = none)
    (herr : (separate_audio file session_id engine unlinkOk st).1 = .error e) :
    sessionDir session_id ∈ (separate_audio file session_id engine unlinkOk st).2.fs.dirs
    ∧ (∀ q, q ∈ st.fs.files → q ≠ inputFilePath file session_id →
        q ∈ (separate_audio file session_id engine unlinkOk st).2.fs.files)
    ∧ (e = fileTooLargeResponse ∨ e = processingTimeoutResponse
        ∨ e = outputMissingResponse ∨ ∃ s, e = engineFailureResponse s) := by
  rw [separate_audio_fst file session_id engine unlinkOk st hval] at herr
  refine ⟨?_, ?_,
    separate_body_error_cases file session_id engine (mkSessionSt session_id st) e herr⟩
  · rw [separate_audio_snd file session_id engine unlinkOk st hval,
      separate_finally_dirs]
    exact separate_body_mem_dirs file session_id engine _ _ (mkSessionSt_mem_dir session_id st)
  · intro q hq hne
    rw [separate_audio_snd file session_id engine unlinkOk st hval]
    refine separate_finally_mem_files_of_ne _ _ _ _ ?_ hne
    apply separate_body_mem_files
    rw [mkSessionSt_files]
    exact hq

/-- C10 witness: after a concrete timed-out request the workspace directory
is still on disk and an unrelated pre-existing file survived. -/
theorem C10_witness :
    sessionDir "s" ∈ (separate_audio ⟨some "song.mp3", none, 3⟩ "s"
        ⟨.timeout, [], []⟩ true ⟨⟨[["tmp"]], [["tmp", "other.txt"]]⟩, 0⟩).2.fs.dirs
    ∧ ["tmp", "other.txt"] ∈ (separate_audio ⟨some "song.mp3", none, 3⟩ "s"
        ⟨.timeout, [], []⟩ true ⟨⟨[["tmp"]], [["tmp", "other.txt"]]⟩, 0⟩).2.fs.files :=
  ⟨(C10_failure_keeps_workspace ⟨some "song.mp3", none, 3⟩ "s" ⟨.timeout, [], []⟩
      true ⟨⟨[["tmp"]], [["tmp", "other.txt"]]⟩, 0⟩ processingTimeoutResponse
      (by decide) rfl).1,
   (C10_failure_keeps_workspace ⟨some "song.mp3", none, 3⟩ "s" ⟨.timeout, [], []⟩
      true ⟨⟨[["tmp"]], [["tmp", "other.txt"]]⟩, 0⟩ processingTimeoutResponse
      (by decide) rfl).2.1 ["tmp", "other.txt"] (by decide) (by decide)⟩

/-- C1 counterexample: a workspace with two subdirectories — ambiguous by
the claim — on which resolution nevertheless succeeds, returning a file
from the first subdirectory instead of failing. -/
theorem C1_counterexample_ambiguity_succeeds :
    (FS.subdirs
        ⟨[["tmp"], ["tmp", "vocal_remover_s"], ["tmp", "vocal_remover_s", "a"],
          ["tmp", "vocal_remover_s", "b"]],
         [["tmp", "vocal_remover_s", "a", "vocals.wav"]]⟩
        (sessionDir "s")).length = 2
    ∧ download_track
        ⟨[["tmp"], ["tmp", "vocal_remover_s"], ["tmp", "vocal_remover_s", "a"],
          ["tmp", "vocal_remover_s", "b"]],
         [["tmp", "vocal_remover_s", "a", "vocals.wav"]]⟩
        "s" "vocals"
      = .ok (["tmp", "vocal_remover_s", "a", "vocals.wav"], "vocals.wav") :=
  ⟨by decide, rfl⟩

/-- C1 amended: resolution does not fail on ambiguity.  With the workspace
present and at least one subdirectory (one or many), the **first**
subdirectory in listing order is selected and resolution succeeds exactly
when the requested stem file exists inside it; resolution fails for a
present workspace only when there is no subdirectory at all (or the stem
file is missing from the selected first subdirectory). -/
theorem C1_first_subdirectory_selected (fs : FS) (sid : String) (d : FPath)
    (rest : List FPath)
    (hdir : fs.dirExists (sessionDir sid))
    (hsub : fs.subdirs (sessionDir sid) = d :: rest) :
    (download_track fs sid "vocals"
      = if fs.fileExists (d ++ ["vocals.wav"])
        then .ok (d ++ ["vocals.wav"], "vocals.wav")
        else .error (trackFileNotFoundResponse "vocals"))
    ∧ (download_track fs sid "instrumental"
      = if fs.fileExists (d ++ ["accompaniment.wav"])
        then .ok (d ++ ["accompaniment.wav"], "instrumental.wav")
        else .error (trackFileNotFoundResponse "instrumental"))
    ∧ ∀ fs2 : FS, fs2.dirExists (sessionDir sid) → fs2.subdirs (sessionDir sid) = [] →
        download_track fs2 sid "vocals" = .error processedNotFoundResponse := by
  refine ⟨?_, ?_, ?_⟩
  · unfold download_track
    rw [if_neg (by simp : ¬ ("vocals" ≠ "vocals" ∧ "vocals" ≠ "instrumental")),
      if_neg (not_not_intro hdir), hsub]
    show (if fs.fileExists (trackTarget d "vocals").1
        then Except.ok (trackTarget d "vocals")
        else Except.error (trackFileNotFoundResponse "vocals")) = _
    rw [show trackTarget d "vocals" = (d ++ ["vocals.wav"], "vocals.wav") from by
      unfold trackTarget; rw [if_pos rfl]]
  · unfold download_track
    rw [if_neg (by simp : ¬ ("instrumental" ≠ "vocals" ∧ "instrumental" ≠ "instrumental")),
      if_neg (not_not_intro hdir), hsub]
    show (if fs.fileExists (trackTarget d "instrumental").1
        then Except.ok (trackTarget d "instrumental")
        else Except.error (trackFileNotFoundResponse "instrumental")) = _
    rw [show trackTarget d "instrumental" = (d ++ ["accompaniment.wav"], "instrumental.wav") from by
      unfold trackTarget; rw [if_neg (by decide)]]
  · intro fs2 h2 hs2
    unfold download_track
    rw [if_neg (by simp : ¬ ("vocals" ≠ "vocals" ∧ "vocals" ≠ "instrumental")),
      if_neg (not_not_intro h2), hs2]

/-- C1 witness: on a workspace with two subdirectories the amended statement
resolves the request through the first one. -/
theorem C1_witness :
    download_track
        ⟨[["tmp"], ["tmp", "vocal_remover_w1"], ["tmp", "vocal_remover_w1", "a"],
          ["tmp", "vocal_remover_w1", "b"]],
         [["tmp", "vocal_remover_w1", "a", "vocals.wav"]]⟩
        "w1" "vocals"
      = .ok (["tmp", "vocal_remover_w1", "a", "vocals.wav"], "vocals.wav") := by
  rw [(C1_first_subdirectory_selected
      ⟨[["tmp"], ["tmp", "vocal_remover_w1"], ["tmp", "vocal_remover_w1", "a"],
        ["tmp", "vocal_remover_w1", "b"]],
       [["tmp", "vocal_remover_w1", "a", "vocals.wav"]]⟩
      "w1" ["tmp", "vocal_remover_w1", "a"] [["tmp", "vocal_remover_w1", "b"]]
      (by decide) (by decide)).1]
  rfl

end VocalRemover
